import Mathlib

/-!
Verification of the temporal-function execution and monotonicity-inference
framework (`FunctionDateOrDateTimeToSomething.h`): a shallow embedding of the
Scale Adapter (`WithDateTime64Converter`), the Signature Validator
(`getReturnTypeImpl`), the Dispatch Engine (`executeImpl`) and the
Monotonicity Oracle (`getMonotonicityForRange`), together with theorems about
their numeric, routing and error behaviour.
-/

namespace DB

/-- The two error codes used by the framework (source lines 13–17:
`ILLEGAL_TYPE_OF_ARGUMENT`, `NUMBER_OF_ARGUMENTS_DOESNT_MATCH`). -/
inductive ErrorCode where
  | ILLEGAL_TYPE_OF_ARGUMENT
  | NUMBER_OF_ARGUMENTS_DOESNT_MATCH
deriving DecidableEq

/-- Modelled from the spec: each failure carries a stable error kind and a
human-readable message naming the function and the offending argument/type
(the host engine's `Exception` class is outside the excerpt). -/
structure Exception where
  message : String
  code : ErrorCode
deriving DecidableEq

/-- Modelled from the spec: the data types relevant to this framework.
`date` is the calendar-day type (`DataTypeDate`, unsigned 16-bit day count),
`dateTime` the epoch-second type (`DataTypeDateTime`, 32-bit second count,
with an embedded timezone name, empty meaning default), `dateTime64` the
scaled-tick type (`DataTypeDateTime64`, signed 64-bit tick count at a fixed
decimal scale, with a timezone name); `string` and `uint8`/`uint16` are the
non-temporal types the validator and the transform outputs mention; `other`
stands for any remaining host type, identified by its name. -/
inductive DataType where
  | date
  | dateTime (timezone : String)
  | dateTime64 (scale : Nat) (timezone : String)
  | string
  | uint8
  | uint16
  | other (name : String)
deriving DecidableEq

/-- The host's `IDataType::getName` restricted to the modelled types. -/
def DataType.getName : DataType → String
  | .date => "Date"
  | .dateTime _ => "DateTime"
  | .dateTime64 _ _ => "DateTime64"
  | .string => "String"
  | .uint8 => "UInt8"
  | .uint16 => "UInt16"
  | .other n => n

/-- Modelled from the spec: the host type-system query `isDateOrDateTime`
(argument 0 must be a temporal type: `CalendarDay` or the
`EpochSecond`/`ScaledTick` family). -/
def isDateOrDateTime : DataType → Bool
  | .date => true
  | .dateTime _ => true
  | .dateTime64 _ _ => true
  | _ => false

/-- Modelled from the spec: the host type-system query `isDate`
(the day-only calendar type). -/
def isDate : DataType → Bool
  | .date => true
  | _ => false

/-- Modelled from the spec: the host type-system query `isString`. -/
def isString : DataType → Bool
  | .string => true
  | _ => false

/-- Modelled from the spec: one argument of a function call as the validator
sees it — its declared type, plus the value carried by the column when it is
a constant string column (`none` when the column is non-constant or not a
string constant). -/
structure ColumnWithTypeAndName where
  type : DataType
  constStringValue : Option String
deriving DecidableEq

instance : Inhabited ColumnWithTypeAndName := ⟨⟨DataType.other "Nothing", none⟩⟩

/-- The `ToDataType` template parameter of `FunctionDateOrDateTimeToSomething`:
the output data type the concrete function declares. The validator compares it
against `DataTypeDate`, `DataTypeDateTime` and `DataTypeDateTime64` with
`std::is_same_v`; `uint8`/`uint16` represent the plain integer output types of
transforms such as `toDayOfWeek`/`toYear`. -/
inductive ToDataTypeKind where
  | date
  | dateTime
  | dateTime64 (scale : Nat)
  | uint8
  | uint16
deriving DecidableEq

/-- The timezone name embedded in a temporal type, when any. -/
def DataType.embeddedTimeZone : DataType → String
  | .dateTime tz => tz
  | .dateTime64 _ tz => tz
  | _ => ""

/-- Modelled from the spec: `extractTimeZoneNameFromFunctionArguments`
(outside the excerpt) — the resolved timezone is the constant string from
argument 1 if given, else the timezone embedded in argument 0's type if any,
else the default/empty timezone. -/
def extractTimeZoneNameFromFunctionArguments (arguments : List ColumnWithTypeAndName) : String :=
  match arguments with
  | [_, tzArg] => tzArg.constStringValue.getD ""
  | [arg0] => arg0.type.embeddedTimeZone
  | _ => ""

/-- The return-type construction at the end of `getReturnTypeImpl`
(source lines 89–95): for `DataTypeDateTime` and `DataTypeDateTime64` the
extracted timezone is attached to the type; every other output type is built
plain. -/
def makeReturnType (toType : ToDataTypeKind) (arguments : List ColumnWithTypeAndName) : DataType :=
  match toType with
  | .dateTime => .dateTime (extractTimeZoneNameFromFunctionArguments arguments)
  | .dateTime64 scale => .dateTime64 scale (extractTimeZoneNameFromFunctionArguments arguments)
  | .date => .date
  | .uint8 => .uint8
  | .uint16 => .uint16

/-- The Signature Validator `getReturnTypeImpl` (source lines 55–96), for the
function named `name` with declared output type `toType`: arity must be 1
or 2; argument 0 must be a date or date-with-time type; a second argument must
be of string type; the timezone argument is rejected when argument 0 is
`Date` and the output type is `DataTypeDate`; otherwise the output type is
constructed, attaching the extracted timezone when the output family carries
one. Each `throw` of the source is an `Except.error` carrying the source's
message and error code. -/
def getReturnTypeImpl (toType : ToDataTypeKind) (name : String)
    (arguments : List ColumnWithTypeAndName) : Except Exception DataType :=
  if arguments.length = 1 then
    if ¬ isDateOrDateTime (arguments.getD 0 default).type then
      .error { message := "Illegal type " ++ (arguments.getD 0 default).type.getName
                 ++ " of argument of function " ++ name ++ ". Should be a date or a date with time",
               code := .ILLEGAL_TYPE_OF_ARGUMENT }
    else
      .ok (makeReturnType toType arguments)
  else if arguments.length = 2 then
    if ¬ isDateOrDateTime (arguments.getD 0 default).type then
      .error { message := "Illegal type " ++ (arguments.getD 0 default).type.getName
                 ++ " of argument of function " ++ name ++ ". Should be a date or a date with time",
               code := .ILLEGAL_TYPE_OF_ARGUMENT }
    else if ¬ isString (arguments.getD 1 default).type then
      .error { message := "Function " ++ name ++ " supports 1 or 2 arguments. The 1st argument "
                 ++ "must be of type Date or DateTime. The 2nd argument (optional) must be "
                 ++ "a constant string with timezone name",
               code := .ILLEGAL_TYPE_OF_ARGUMENT }
    else if isDate (arguments.getD 0 default).type ∧ toType = ToDataTypeKind.date then
      .error { message := "The timezone argument of function " ++ name
                 ++ " is allowed only when the 1st argument has the type DateTime",
               code := .ILLEGAL_TYPE_OF_ARGUMENT }
    else
      .ok (makeReturnType toType arguments)
  else
    .error { message := "Number of arguments for function " ++ name ++ " doesn't match: passed "
               ++ toString arguments.length ++ ", should be 1 or 2",
             code := .NUMBER_OF_ARGUMENTS_DOESNT_MATCH }

/-- Modelled from the spec: the opaque timezone handle (`DateLUTImpl`) —
resolved once, read-only, consumed uniformly by transforms; one abstract field
stands for the identity of the timezone it denotes. -/
structure DateLUTImpl where
  tzId : Nat
deriving DecidableEq

/-- Modelled from the spec: the transform plugin interface — a named, stateless
pure function `execute(value, timezone)` over integer day counts or second
counts, together with its static `FactorTransform`: `factorIsZeroTransform`
models `std::is_same_v ⟨FactorTransform, ZeroTransform⟩` (the "no factoring"
marker) and `factorExecute` models `FactorTransform::execute`. -/
structure Transform where
  name : String
  execute : Nat → DateLUTImpl → Int
  factorIsZeroTransform : Bool
  factorExecute : Nat → DateLUTImpl → Int

/-- Modelled from the spec: `DecimalUtils::getWholePart` (outside the
excerpt) — the whole-second component of a scaled tick value, by integer
division toward negative infinity by `10^scale`. -/
def getWholePart (value : Int) (scale : Nat) : Int :=
  Int.fdiv value ((10 : Int) ^ scale)

/-- The Scale Adapter `WithDateTime64Converter` (source lines 19–36): a scale
and a base transform. -/
structure WithDateTime64Converter where
  scale : Nat
  transform : Transform

/-- `WithDateTime64Converter::execute` (source lines 30–35): derive the whole
seconds of the tick value at the stored scale, narrow with
`static_cast ⟨UInt32⟩` (reduction modulo `2^32` into the unsigned range), and
delegate to the base transform with the same timezone. -/
def WithDateTime64Converter.execute (c : WithDateTime64Converter) (t : Int)
    (time_zone : DateLUTImpl) : Int :=
  c.transform.execute (Int.toNat (Int.emod (getWholePart t c.scale) (2 ^ 32))) time_zone

/-- Modelled from the spec: one input batch as the Dispatch Engine sees it —
the declared type of argument 0 (whose tag is inspected for routing), the raw
physical values of the column (day counts and second counts are the
nonnegative values below `2^16` resp. `2^32`; ticks are signed), and the
batch's timezone. -/
structure Block where
  type : DataType
  values : List Int
  time_zone : DateLUTImpl

/-- The Dispatch Engine `executeImpl` (source lines 101–120): route on the
type tag of argument 0 — `Date` and `DateTime` apply the transform directly,
`DateTime64` first wraps the transform in a `WithDateTime64Converter` built
with the column's scale, any other type raises `ILLEGAL_TYPE_OF_ARGUMENT`
naming the type and the function. The per-row application
(`DateTimeTransformImpl`, outside the excerpt) is modelled from the spec:
output row i is the transform applied to input row i with the batch's
timezone. -/
def executeImpl (T : Transform) (name : String) (block : Block) :
    Except Exception (List Int) :=
  match block.type with
  | .date =>
      .ok (block.values.map fun v => T.execute v.toNat block.time_zone)
  | .dateTime _ =>
      .ok (block.values.map fun v => T.execute v.toNat block.time_zone)
  | .dateTime64 scale _ =>
      let transformer : WithDateTime64Converter := { scale := scale, transform := T }
      .ok (block.values.map fun v => transformer.execute v block.time_zone)
  | t =>
      .error { message := "Illegal type " ++ t.getName ++ " of argument of function " ++ name,
               code := .ILLEGAL_TYPE_OF_ARGUMENT }

/-- Modelled from the spec: the Monotonicity Oracle's result record
(`IFunction::Monotonicity`, outside the excerpt) — `is_monotonic` defaults to
false, `is_positive` to true, `is_always_monotonic` to false, so the source's
`Monotonicity ⟨true⟩` is the record with only `is_monotonic` set. -/
structure Monotonicity where
  is_monotonic : Bool := false
  is_positive : Bool := true
  is_always_monotonic : Bool := false
deriving DecidableEq

/-- A range boundary: the null `Field` (unbounded) or an unsigned 64-bit value
as read by `Field::get ⟨UInt64⟩`. -/
abbrev Field := Option Nat

/-- The Monotonicity Oracle `getMonotonicityForRange` (source lines 128–159):
if the transform's `FactorTransform` is `ZeroTransform`, report
always-monotonic; otherwise resolve the process-global default timezone
(`DateLUT::instance()`, here the explicit `date_lut` state argument), report
not-monotonic if either boundary is null, and otherwise compare the factor
transform at the two boundaries cast to `UInt16` for a `Date` input type and
to `UInt32` otherwise. -/
def getMonotonicityForRange (T : Transform) (type : DataType) (left right : Field)
    (date_lut : DateLUTImpl) : Monotonicity :=
  let is_monotonic : Monotonicity := { is_monotonic := true }
  let is_not_monotonic : Monotonicity := {}
  if T.factorIsZeroTransform then
    { is_monotonic with is_always_monotonic := true }
  else
    match left, right with
    | none, _ => is_not_monotonic
    | _, none => is_not_monotonic
    | some l, some r =>
      if type = DataType.date then
        if T.factorExecute (l % 2 ^ 16) date_lut = T.factorExecute (r % 2 ^ 16) date_lut then
          is_monotonic
        else
          is_not_monotonic
      else
        if T.factorExecute (l % 2 ^ 32) date_lut = T.factorExecute (r % 2 ^ 32) date_lut then
          is_monotonic
        else
          is_not_monotonic

end DB

namespace DB

/-! ## Theorems -/

/-- The derived whole part is exactly the rational floor of `t / 10^scale`
(shared helper: `Int.fdiv` by the positive constant `10^scale` is floor
division). -/
theorem getWholePart_eq_floor (t : Int) (scale : Nat) :
    getWholePart t scale = ⌊(t : ℚ) / ((10 : ℚ) ^ scale)⌋ := by
  have h : ((10 : ℚ) ^ scale) = ((10 ^ scale : ℕ) : ℚ) := by push_cast; ring
  rw [getWholePart, h, Rat.floor_intCast_div_natCast, Int.fdiv_eq_ediv _ (by positivity)]
  norm_num

/-- C1: for every scale in 0..9 and every tick value t in the signed 64-bit
domain, the Scale Adapter's derived whole-second value (`getWholePart`, the
quantity `WithDateTime64Converter::execute` feeds to the base transform before
the `UInt32` cast) is numerically identical to the mathematical
`floor(t / 10^scale)`, rounding toward negative infinity also for negative
pre-epoch t; the fractional component is discarded, never rounded. -/
theorem scale_adapter_floor_exact (scale : Nat) (hs : scale ≤ 9) (t : Int)
    (hlo : -(2 ^ 63) ≤ t) (hhi : t < 2 ^ 63) :
    getWholePart t scale = ⌊(t : ℚ) / ((10 : ℚ) ^ scale)⌋ :=
  getWholePart_eq_floor t scale

/-- C1 witness: at scale 3 and tick value -500 the derived seconds equal the
floor, which is -1, not 0. -/
theorem scale_adapter_floor_exact_witness :
    getWholePart (-500) 3 = ⌊((-500 : Int) : ℚ) / ((10 : ℚ) ^ 3)⌋
      ∧ getWholePart (-500) 3 = -1 :=
  ⟨scale_adapter_floor_exact 3 (by decide) (-500) (by decide) (by decide), by decide⟩

/-- C9: the Scale Adapter passes the derived whole-second value to the base
transform after a cast to unsigned 32 bits: for every scale and tick value t,
the base transform receives `floor(t / 10^scale)` reduced modulo `2^32` — a
nonnegative value below `2^32`, so pre-epoch (negative) whole seconds and
whole seconds at or above `2^32` arrive wrapped, never negative or wider. -/
theorem scale_adapter_uint32_wrap (scale : Nat) (T : Transform) (t : Int)
    (tz : DateLUTImpl) (hs : scale ≤ 9) :
    WithDateTime64Converter.execute { scale := scale, transform := T } t tz
        = T.execute (Int.toNat (Int.emod ⌊(t : ℚ) / ((10 : ℚ) ^ scale)⌋ (2 ^ 32))) tz
      ∧ Int.toNat (Int.emod ⌊(t : ℚ) / ((10 : ℚ) ^ scale)⌋ (2 ^ 32)) < 2 ^ 32 := by
  constructor
  · rw [WithDateTime64Converter.execute]
    rw [show ({ scale := scale, transform := T } : WithDateTime64Converter).scale = scale from rfl]
    rw [getWholePart_eq_floor]
  · have h1 : 0 ≤ Int.emod ⌊(t : ℚ) / ((10 : ℚ) ^ scale)⌋ (2 ^ 32) :=
      Int.emod_nonneg _ (by positivity)
    have h2 : Int.emod ⌊(t : ℚ) / ((10 : ℚ) ^ scale)⌋ (2 ^ 32) < 2 ^ 32 :=
      Int.emod_lt_of_pos _ (by positivity)
    omega

/-- C9 witness: at scale 3 and tick value -500 (whole seconds -1) the base
transform receives `2^32 - 1 = 4294967295`. -/
theorem scale_adapter_uint32_wrap_witness :
    WithDateTime64Converter.execute
        { scale := 3, transform := ⟨"id", fun v _ => Int.ofNat v, true, fun _ _ => 0⟩ } (-500) ⟨0⟩
      = (⟨"id", fun v _ => Int.ofNat v, true, fun _ _ => 0⟩ : Transform).execute
          (Int.toNat (Int.emod ⌊((-500 : Int) : ℚ) / ((10 : ℚ) ^ 3)⌋ (2 ^ 32))) ⟨0⟩
      ∧ WithDateTime64Converter.execute
          { scale := 3, transform := ⟨"id", fun v _ => Int.ofNat v, true, fun _ _ => 0⟩ } (-500) ⟨0⟩
        = 4294967295 :=
  ⟨(scale_adapter_uint32_wrap 3 ⟨"id", fun v _ => Int.ofNat v, true, fun _ _ => 0⟩ (-500) ⟨0⟩
      (by decide)).1,
   by decide⟩

/-- C3: for every transform whose FactorTransform is the "no factoring" marker
(`ZeroTransform`), `getMonotonicityForRange` reports
`is_always_monotonic = true` (and `is_monotonic = true`) for every input type
and every range — including degenerate and unbounded (null-boundary) ranges —
without inspecting the range at all. -/
theorem monotonicity_zero_factor_always (T : Transform)
    (hT : T.factorIsZeroTransform = true) (type : DataType) (left right : Field)
    (lut : DateLUTImpl) :
    getMonotonicityForRange T type left right lut
      = { is_monotonic := true, is_positive := true, is_always_monotonic := true } := by
  simp [getMonotonicityForRange, hT]

/-- C3 witness: a zero-factor transform on a fully unbounded range. -/
theorem monotonicity_zero_factor_always_witness :
    getMonotonicityForRange ⟨"toDayOfYear", fun v _ => Int.ofNat v, true, fun _ _ => 0⟩
        (DataType.dateTime "") none none ⟨0⟩
      = { is_monotonic := true, is_positive := true, is_always_monotonic := true } :=
  monotonicity_zero_factor_always ⟨"toDayOfYear", fun v _ => Int.ofNat v, true, fun _ _ => 0⟩
    rfl (DataType.dateTime "") none none ⟨0⟩

/-- C2: for every transform whose FactorTransform is not the "no factoring"
marker, the oracle returns not-monotonic whenever either boundary is the null
Field; with both boundaries given it casts them to the 16-bit day-count width
for the `Date` input type and to the 32-bit second-count width otherwise,
evaluates the FactorTransform at both cast boundaries, and reports
monotonic-on-range if and only if the two factor values are equal (and never
always-monotonic). -/
theorem monotonicity_factor_comparison (T : Transform)
    (hT : T.factorIsZeroTransform = false) (type : DataType) (lut : DateLUTImpl) :
    (∀ r, getMonotonicityForRange T type none r lut = { is_monotonic := false })
    ∧ (∀ l, getMonotonicityForRange T type l none lut = { is_monotonic := false })
    ∧ (∀ l r, (getMonotonicityForRange T type (some l) (some r) lut).is_always_monotonic = false
        ∧ ((getMonotonicityForRange T type (some l) (some r) lut).is_monotonic = true ↔
            T.factorExecute (if type = DataType.date then l % 2 ^ 16 else l % 2 ^ 32) lut
              = T.factorExecute (if type = DataType.date then r % 2 ^ 16 else r % 2 ^ 32) lut)) := by
  refine ⟨?_, ?_, ?_⟩
  · intro r
    cases r <;> simp [getMonotonicityForRange, hT]
  · intro l
    cases l <;> simp [getMonotonicityForRange, hT]
  · intro l r
    by_cases ht : type = DataType.date <;>
      simp only [getMonotonicityForRange, hT, ht, if_true, if_false, Bool.false_eq_true,
        if_neg, ite_false, ite_true] <;>
      split <;> simp_all

/-- C2 witness: a factoring transform, left boundary null. -/
theorem monotonicity_factor_comparison_witness :
    getMonotonicityForRange ⟨"toYear", fun v _ => Int.ofNat v, false, fun v _ => Int.ofNat (v / 100)⟩
        (DataType.dateTime "") none (some 5) ⟨0⟩ = { is_monotonic := false } :=
  (monotonicity_factor_comparison
      ⟨"toYear", fun v _ => Int.ofNat v, false, fun v _ => Int.ofNat (v / 100)⟩
      rfl (DataType.dateTime "") ⟨0⟩).1 (some 5)

/-- C8 as stated is false: the oracle resolves the process-global default
timezone (`DateLUT::instance()`) and feeds it to the FactorTransform, so two
calls with identical explicit arguments (same transform, input type and
boundaries) under different global default-timezone states can return
different answers: here monotonic under timezone state 0 and not-monotonic
under timezone state 1, for a factor transform that (like the real bucketing
transforms) reads the timezone. -/
theorem oracle_global_timezone_counterexample :
    getMonotonicityForRange
        ⟨"toStartOfDay", fun v _ => Int.ofNat v, false,
          fun v lut => if lut.tzId = 0 then 0 else Int.ofNat v⟩
        (DataType.dateTime "") (some 0) (some 1) ⟨0⟩
      ≠ getMonotonicityForRange
          ⟨"toStartOfDay", fun v _ => Int.ofNat v, false,
            fun v lut => if lut.tzId = 0 then 0 else Int.ofNat v⟩
          (DataType.dateTime "") (some 0) (some 1) ⟨1⟩ := by
  decide

/-- C8 amended: the oracle has no side effects and is a pure function of its
explicit arguments and the process-global default timezone; it depends on that
global state only through the FactorTransform's evaluations, so any two
global timezone states under which the FactorTransform agrees pointwise yield
identical answers for equal explicit arguments. -/
theorem oracle_determinism_amended (T : Transform) (type : DataType)
    (left right : Field) (lut1 lut2 : DateLUTImpl)
    (h : ∀ v, T.factorExecute v lut1 = T.factorExecute v lut2) :
    getMonotonicityForRange T type left right lut1
      = getMonotonicityForRange T type left right lut2 := by
  unfold getMonotonicityForRange
  cases left <;> cases right <;> simp [h]

/-- C8 amended witness: a timezone-insensitive factor transform gives the same
answer under two distinct global timezone states. -/
theorem oracle_determinism_amended_witness :
    getMonotonicityForRange ⟨"toYear", fun v _ => Int.ofNat v, false, fun v _ => Int.ofNat v⟩
        (DataType.dateTime "") (some 0) (some 1) ⟨0⟩
      = getMonotonicityForRange ⟨"toYear", fun v _ => Int.ofNat v, false, fun v _ => Int.ofNat v⟩
          (DataType.dateTime "") (some 0) (some 1) ⟨1⟩ :=
  oracle_determinism_amended ⟨"toYear", fun v _ => Int.ofNat v, false, fun v _ => Int.ofNat v⟩
    (DataType.dateTime "") (some 0) (some 1) ⟨0⟩ ⟨1⟩ (fun _ => rfl)

/-- C10: the oracle reads each non-null boundary as an unsigned 64-bit value
and truncates it to 16 bits for the `Date` input type and to 32 bits for every
other input type before evaluating the FactorTransform, so boundaries
congruent modulo `2^16` (respectively `2^32`) are indistinguishable to it. -/
theorem monotonicity_width_truncation (T : Transform) (lut : DateLUTImpl)
    (l l2 r r2 : Nat) :
    (l % 2 ^ 16 = l2 % 2 ^ 16 → r % 2 ^ 16 = r2 % 2 ^ 16 →
      getMonotonicityForRange T DataType.date (some l) (some r) lut
        = getMonotonicityForRange T DataType.date (some l2) (some r2) lut)
    ∧ (∀ type, type ≠ DataType.date → l % 2 ^ 32 = l2 % 2 ^ 32 → r % 2 ^ 32 = r2 % 2 ^ 32 →
      getMonotonicityForRange T type (some l) (some r) lut
        = getMonotonicityForRange T type (some l2) (some r2) lut) := by
  constructor
  · intro h1 h2
    have h1n : l % 65536 = l2 % 65536 := by simpa using h1
    have h2n : r % 65536 = r2 % 65536 := by simpa using h2
    simp [getMonotonicityForRange, h1n, h2n]
  · intro type ht h1 h2
    have h1n : l % 4294967296 = l2 % 4294967296 := by simpa using h1
    have h2n : r % 4294967296 = r2 % 4294967296 := by simpa using h2
    simp [getMonotonicityForRange, ht, h1n, h2n]

/-- C10 witness: day-count boundaries 0 and 65536 (congruent modulo `2^16`)
are indistinguishable for a `Date` input type. -/
theorem monotonicity_width_truncation_witness :
    getMonotonicityForRange ⟨"toYear", fun v _ => Int.ofNat v, false, fun v _ => Int.ofNat v⟩
        DataType.date (some 0) (some 70000) ⟨0⟩
      = getMonotonicityForRange ⟨"toYear", fun v _ => Int.ofNat v, false, fun v _ => Int.ofNat v⟩
          DataType.date (some 65536) (some 70000) ⟨0⟩ :=
  (monotonicity_width_truncation ⟨"toYear", fun v _ => Int.ofNat v, false, fun v _ => Int.ofNat v⟩
      ⟨0⟩ 0 65536 70000 70000).1 (by decide) (by decide)

/-- C4 as stated is false: with declared output type `UInt16` — which has no
timezone slot — a `Date` first argument combined with a constant-string
timezone second argument is accepted by type resolution, not rejected with
`IllegalArgumentType`; the code rejects the timezone argument only when the
declared output type is exactly `DataTypeDate`. -/
theorem timezone_rejection_counterexample :
    getReturnTypeImpl ToDataTypeKind.uint16 "toYear"
        [⟨DataType.date, none⟩, ⟨DataType.string, some "UTC"⟩]
      = .ok DataType.uint16 := rfl

/-- C4 amended: for two-argument calls whose first argument is a temporal type
and whose second argument is of string type, the timezone argument is rejected
with `IllegalArgumentType` exactly when argument 0 is the day-only `Date` type
and the declared output type is exactly `DataTypeDate` (not: whenever the
output type lacks a timezone slot). -/
theorem timezone_rejection_amended (toType : ToDataTypeKind) (name : String)
    (a0 a1 : ColumnWithTypeAndName) (h0 : isDateOrDateTime a0.type = true)
    (h1 : isString a1.type = true) :
    getReturnTypeImpl toType name [a0, a1]
        = .error { message := "The timezone argument of function " ++ name
                     ++ " is allowed only when the 1st argument has the type DateTime",
                   code := .ILLEGAL_TYPE_OF_ARGUMENT }
      ↔ (isDate a0.type = true ∧ toType = ToDataTypeKind.date) := by
  unfold getReturnTypeImpl
  by_cases hd : isDate a0.type = true ∧ toType = ToDataTypeKind.date <;>
    simp [h0, h1, hd]

/-- C4 amended witness: output type `Date` with a `Date` first argument and a
timezone argument is rejected. -/
theorem timezone_rejection_amended_witness :
    getReturnTypeImpl ToDataTypeKind.date "toMonday"
        [⟨DataType.date, none⟩, ⟨DataType.string, some "UTC"⟩]
      = .error { message := "The timezone argument of function toMonday"
                   ++ " is allowed only when the 1st argument has the type DateTime",
                 code := .ILLEGAL_TYPE_OF_ARGUMENT } :=
  (timezone_rejection_amended ToDataTypeKind.date "toMonday"
      ⟨DataType.date, none⟩ ⟨DataType.string, some "UTC"⟩ rfl rfl).mpr ⟨rfl, rfl⟩

/-- C5 as stated is false: a two-argument call whose second argument has type
`String` but is not a constant column (no constant value) resolves
successfully — `getReturnTypeImpl` inspects only the declared type of
argument 1, never its constness. -/
theorem const_string_check_counterexample :
    getReturnTypeImpl ToDataTypeKind.uint16 "toYear"
        [⟨DataType.dateTime "", none⟩, ⟨DataType.string, none⟩]
      = .ok DataType.uint16 := rfl

/-- C5 amended: for two-argument calls with a temporal first argument, type
resolution fails with `IllegalArgumentType` when argument 1 is of non-string
type; whether the string column is constant is not inspected, so acceptance is
unchanged under any change of argument 1's constant value or constness. -/
theorem string_type_check_amended (toType : ToDataTypeKind) (name : String)
    (a0 a1 : ColumnWithTypeAndName) (h0 : isDateOrDateTime a0.type = true) :
    (isString a1.type = false →
      getReturnTypeImpl toType name [a0, a1]
        = .error { message := "Function " ++ name ++ " supports 1 or 2 arguments. The 1st argument "
                     ++ "must be of type Date or DateTime. The 2nd argument (optional) must be "
                     ++ "a constant string with timezone name",
                   code := .ILLEGAL_TYPE_OF_ARGUMENT })
    ∧ (∀ v, (getReturnTypeImpl toType name [a0, { type := a1.type, constStringValue := v }]).isOk
          = (getReturnTypeImpl toType name [a0, a1]).isOk) := by
  constructor
  · intro h1
    unfold getReturnTypeImpl
    simp [h0, h1]
  · intro v
    unfold getReturnTypeImpl
    by_cases hs1 : isString a1.type = true
    · by_cases hd : isDate a0.type = true ∧ toType = ToDataTypeKind.date <;>
        simp [h0, hs1, hd, Except.isOk, Except.toBool]
    · simp [h0, hs1, Except.isOk, Except.toBool]

/-- C5 amended witness: a non-string second argument (type `UInt16`) is
rejected with the source's message and `ILLEGAL_TYPE_OF_ARGUMENT`. -/
theorem string_type_check_amended_witness :
    getReturnTypeImpl ToDataTypeKind.uint16 "toYear"
        [⟨DataType.dateTime "", none⟩, ⟨DataType.uint16, none⟩]
      = .error { message := "Function toYear supports 1 or 2 arguments. The 1st argument "
                   ++ "must be of type Date or DateTime. The 2nd argument (optional) must be "
                   ++ "a constant string with timezone name",
                 code := .ILLEGAL_TYPE_OF_ARGUMENT } :=
  (string_type_check_amended ToDataTypeKind.uint16 "toYear"
      ⟨DataType.dateTime "", none⟩ ⟨DataType.uint16, none⟩ rfl).1 rfl

/-- C6: type resolution with an argument count other than 1 or 2 fails with
`NUMBER_OF_ARGUMENTS_DOESNT_MATCH`, its message naming the function and the
actual and allowed counts; with 1 or 2 arguments of valid types it succeeds;
and batch execution never raises this error — every error `executeImpl`
returns carries `ILLEGAL_TYPE_OF_ARGUMENT`. -/
theorem arity_check_resolution_only (toType : ToDataTypeKind) (name : String)
    (arguments : List ColumnWithTypeAndName) (T : Transform) (block : Block) :
    (arguments.length ≠ 1 → arguments.length ≠ 2 →
      getReturnTypeImpl toType name arguments
        = .error { message := "Number of arguments for function " ++ name ++ " doesn't match: passed "
                     ++ toString arguments.length ++ ", should be 1 or 2",
                   code := .NUMBER_OF_ARGUMENTS_DOESNT_MATCH })
    ∧ (arguments.length = 1 → isDateOrDateTime (arguments.getD 0 default).type = true →
        (getReturnTypeImpl toType name arguments).isOk = true)
    ∧ (arguments.length = 2 → isDateOrDateTime (arguments.getD 0 default).type = true →
        isString (arguments.getD 1 default).type = true →
        ¬(isDate (arguments.getD 0 default).type = true ∧ toType = ToDataTypeKind.date) →
        (getReturnTypeImpl toType name arguments).isOk = true)
    ∧ (∀ e, executeImpl T name block = .error e → e.code = ErrorCode.ILLEGAL_TYPE_OF_ARGUMENT) := by
  refine ⟨?_, ?_, ?_, ?_⟩
  · intro h1 h2
    unfold getReturnTypeImpl
    simp [h1, h2]
  · intro h1 h0
    obtain ⟨a, rfl⟩ : ∃ a, arguments = [a] := by
      cases arguments with
      | nil => simp at h1
      | cons x xs =>
        cases xs with
        | nil => exact ⟨x, rfl⟩
        | cons y ys => simp at h1
    simp at h0
    simp [getReturnTypeImpl, h0, Except.isOk, Except.toBool]
  · intro h2 h0 hstr hnot
    obtain ⟨a, b, rfl⟩ : ∃ a b, arguments = [a, b] := by
      cases arguments with
      | nil => simp at h2
      | cons x xs =>
        cases xs with
        | nil => simp at h2
        | cons y ys =>
          cases ys with
          | nil => exact ⟨x, y, rfl⟩
          | cons z zs => simp at h2
    simp at h0 hstr
    have hnot2 : ¬(isDate a.type = true ∧ toType = ToDataTypeKind.date) := by
      intro hc
      apply hnot
      simpa using hc
    simp [getReturnTypeImpl, h0, hstr, hnot2, Except.isOk, Except.toBool]
  · intro e he
    cases hb : block.type <;> rw [executeImpl, hb] at he <;> cases he <;> rfl

/-- C6 witness: zero arguments fail with the count error; one `DateTime`
argument succeeds; execution on a `Date` batch returns no error at all. -/
theorem arity_check_resolution_only_witness :
    getReturnTypeImpl ToDataTypeKind.uint16 "toYear" []
        = .error { message := "Number of arguments for function toYear doesn't match: passed "
                     ++ toString (List.length ([] : List ColumnWithTypeAndName))
                     ++ ", should be 1 or 2",
                   code := .NUMBER_OF_ARGUMENTS_DOESNT_MATCH }
      ∧ (getReturnTypeImpl ToDataTypeKind.uint16 "toYear" [⟨DataType.dateTime "", none⟩]).isOk = true :=
  ⟨(arity_check_resolution_only ToDataTypeKind.uint16 "toYear" []
      ⟨"toYear", fun v _ => Int.ofNat v, true, fun _ _ => 0⟩
      ⟨DataType.date, [], ⟨0⟩⟩).1 (by decide) (by decide),
   (arity_check_resolution_only ToDataTypeKind.uint16 "toYear" [⟨DataType.dateTime "", none⟩]
      ⟨"toYear", fun v _ => Int.ofNat v, true, fun _ _ => 0⟩
      ⟨DataType.date, [], ⟨0⟩⟩).2.1 rfl rfl⟩

/-- C7: `executeImpl` routes on the physical encoding tag of argument 0 to
exactly one specialization — a `Date` batch and a `DateTime` batch apply the
transform directly to each row with the batch timezone, a `DateTime64` batch
applies the transform wrapped in a `WithDateTime64Converter` built with the
column's scale, and every non-temporal type yields `ILLEGAL_TYPE_OF_ARGUMENT`
naming the offending type and the function. -/
theorem dispatch_routing (T : Transform) (name : String) (block : Block) :
    (block.type = DataType.date →
      executeImpl T name block = .ok (block.values.map fun v => T.execute v.toNat block.time_zone))
    ∧ (∀ tzname, block.type = DataType.dateTime tzname →
      executeImpl T name block = .ok (block.values.map fun v => T.execute v.toNat block.time_zone))
    ∧ (∀ scale tzname, block.type = DataType.dateTime64 scale tzname →
      executeImpl T name block
        = .ok (block.values.map fun v =>
            WithDateTime64Converter.execute { scale := scale, transform := T } v block.time_zone))
    ∧ (isDateOrDateTime block.type = false →
      executeImpl T name block
        = .error { message := "Illegal type " ++ block.type.getName
                     ++ " of argument of function " ++ name,
                   code := .ILLEGAL_TYPE_OF_ARGUMENT }) := by
  refine ⟨?_, ?_, ?_, ?_⟩
  · intro h
    rw [executeImpl, h]
  · intro tzname h
    rw [executeImpl, h]
  · intro scale tzname h
    rw [executeImpl, h]
  · intro h
    cases hb : block.type <;> rw [hb] at h <;> simp [isDateOrDateTime] at h <;>
      rw [executeImpl, hb]

/-- C7 witness: a `DateTime64(scale=3)` batch of the two ticks of the spec's
end-to-end scenario routes through the Scale Adapter at scale 3. -/
theorem dispatch_routing_witness :
    executeImpl ⟨"id", fun v _ => Int.ofNat v, true, fun _ _ => 0⟩ "id"
        ⟨DataType.dateTime64 3 "UTC", [1609459200000, 1625097600000], ⟨0⟩⟩
      = .ok [1609459200, 1625097600] :=
  Eq.trans
    ((dispatch_routing ⟨"id", fun v _ => Int.ofNat v, true, fun _ _ => 0⟩ "id"
        ⟨DataType.dateTime64 3 "UTC", [1609459200000, 1625097600000], ⟨0⟩⟩).2.2.1 3 "UTC" rfl)
    rfl

end DB
